import Mathlib

/-!
Shallow embedding of the core of the `bob_dylan_lyrics` repository:
the identity resolver (`read_songs_index` in `src/htmlify.py` /
`bob_dylan_lyrics/__init__.py`) and the annotation aligner
(`find_annotation_indices`, `remove_inline_annotation_marks`, and the
per-song annotation driver).

Python strings are modelled as Lean `String`/`List Char` (Python `len`
counts characters, as does `List.length` on `String.data`), optional
metadata fields as `Option`, truthiness flags as `Bool`, and raised
`ValueError`s as `Except` with one constructor per error named in the
documentation.
-/

namespace BobDylan

/-! ## Data model

`Song.__init__` (`bob_dylan_lyrics/__init__.py`, lines 150-162): the
fields used by the identity resolver.  `actual_name` is `None` (or a
falsy value) when absent; `file_id` is `None` when the song has no
standalone lyrics file; `instrumental` and `written_and_performed_by`
are modelled as their truthiness (the code only tests them with `if`).
-/

structure Song where
  name : String
  actual_name : Option String
  file_id : Option String
  instrumental : Bool
  written_and_performed_by : Bool
  deriving Repr, DecidableEq

/-- `Album` as used by the resolver: name, file identifier, and the
ordered song list (`Album.__init__` sorts songs by their `index`
attribute; the list here is that constructed order). -/
structure Album where
  name : String
  file_id : String
  songs : List Song
  deriving Repr, DecidableEq

/-- Reference to an album stored inside a version group:
`file_album_dict = {'name': album.name, 'file_id': album.file_id}`
(`src/htmlify.py`, line 125). -/
structure AlbumRef where
  name : String
  file_id : String
  deriving Repr, DecidableEq

/-- One version entry of `song_files_dict`:
`{'file_id': song_file_id, 'album(s)': [...]}`. -/
structure VersionGroup where
  file_id : Option String
  albums : List AlbumRef
  deriving Repr, DecidableEq

/-- `song_files_dict`, a Python dict in insertion order, modelled as an
association list with unique keys. -/
abbrev SongFilesDict := List (String × List VersionGroup)

/-- `file_id_types_to_skip = ['instrumental', 'not_written_or_peformed_by_dylan']`
(`src/__init__.py`, line 24).  Membership of the computed song file id
(which may be Python `None`, i.e. `none`, never a member) in this list
of strings is modelled over `Option String`. -/
def file_id_types_to_skip : List (Option String) :=
  [some "instrumental", some "not_written_or_peformed_by_dylan"]

/-- The computed file id / category of a song (`src/htmlify.py`, lines
118-123): `'instrumental'` if the instrumental flag is truthy, else
`'not_written_or_peformed_by_dylan'` if `written_and_performed_by` is
truthy, else the song's own `file_id` (possibly `None`). -/
def song_file_id (s : Song) : Option String :=
  if s.instrumental then some "instrumental"
  else if s.written_and_performed_by then some "not_written_or_peformed_by_dylan"
  else s.file_id

/-- The canonical song name (`src/htmlify.py`, line 112):
`song.actual_name if song.actual_name else song.name`.  A falsy
`actual_name` (absent) is `none`. -/
def song_key (s : Song) : String :=
  match s.actual_name with
  | some n => n
  | none => s.name

/-- The `for file_ids_dict in song_files_dict[song_name]: ... break`
scan (`src/htmlify.py`, lines 141-145): find the first group with an
equal file id and append the album to its album list; `none` when no
group matches (the `found_file_id_in_song_dicts` flag stays `False`). -/
def tryMergeAlbum : List VersionGroup → Option String → AlbumRef →
    Option (List VersionGroup)
  | [], _, _ => none
  | g :: rest, fid, a =>
      if g.file_id = fid then
        some ({ g with albums := g.albums ++ [a] } :: rest)
      else
        (tryMergeAlbum rest fid a).map (g :: ·)

/-- Updating one existing dict entry (`src/htmlify.py`, lines 139-148):
the scan runs only when the file id is not in `file_id_types_to_skip`;
when the scan does not set the found flag, a fresh group holding only
the current album is appended. -/
def addVersion (gs : List VersionGroup) (fid : Option String) (a : AlbumRef) :
    List VersionGroup :=
  let merged := if fid ∈ file_id_types_to_skip then none
                else tryMergeAlbum gs fid a
  match merged with
  | some gs' => gs'
  | none => gs ++ [⟨fid, [a]⟩]

/-- One song step of the resolver fold (`src/htmlify.py`, lines
126-148): a new key is inserted at the end of the dict (Python dicts
preserve insertion order), an existing key's group list is updated in
place. -/
def addSongToDict : SongFilesDict → String → Option String → AlbumRef →
    SongFilesDict
  | [], key, fid, a => [(key, [⟨fid, [a]⟩])]
  | (k, gs) :: rest, key, fid, a =>
      if k = key then (k, addVersion gs fid a) :: rest
      else (k, gs) :: addSongToDict rest key fid a

/-- Process one song of one album. -/
def addSong (d : SongFilesDict) (a : AlbumRef) (s : Song) : SongFilesDict :=
  addSongToDict d (song_key s) (song_file_id s) a

/-- The double fold of `read_songs_index` (`src/htmlify.py`, lines
104-148) building `song_files_dict` over all albums and their songs. -/
def build_song_files_dict (albums : List Album) : SongFilesDict :=
  albums.foldl
    (fun d album =>
      album.songs.foldl (fun d' song => addSong d' ⟨album.name, album.file_id⟩ song) d)
    []

/-- Dict lookup (Python `song_files_dict[song_name]` /
`song_name not in song_files_dict`). -/
def lookupSong : SongFilesDict → String → Option (List VersionGroup)
  | [], _ => none
  | (k, gs) :: rest, key => if k = key then some gs else lookupSong rest key

/-! ## Index file reading (`read_songs_index`, `src/htmlify.py` lines 79-99)

The source strips lines starting with `#`, parses the rest as JSON and
walks the records: `album`-typed records are collected, `song`-typed
records are skipped (unimplemented branch), anything else raises
immediately; after the walk an empty album list raises. -/

inductive IndexErr where
  | malformedIndexRecord
  | emptyIndexFile
  deriving Repr, DecidableEq

/-- One line of the index source: a comment line (starts with `#`,
stripped before parsing) or a typed record. -/
inductive SrcLine where
  | comment (text : String)
  | album (a : Album)
  | song
  | other (type_ : String)
  deriving Repr, DecidableEq

/-- The record walk of `read_songs_index`: collect albums, skip
comments and `song` records, raise on any other record type. -/
def collectAlbums : List SrcLine → Except IndexErr (List Album)
  | [] => .ok []
  | .comment _ :: rest => collectAlbums rest
  | .album a :: rest => (collectAlbums rest).map (a :: ·)
  | .song :: rest => collectAlbums rest
  | .other _ :: _ => .error .malformedIndexRecord

/-- `read_songs_index` (`src/htmlify.py`, lines 57-150): collect the
albums, raise `EmptyIndexFile` when none were found, else build
`song_files_dict`. -/
def read_songs_index (lines : List SrcLine) :
    Except IndexErr (List Album × SongFilesDict) :=
  match collectAlbums lines with
  | .error e => .error e
  | .ok albums =>
      if albums.isEmpty then .error .emptyIndexFile
      else .ok (albums, build_song_files_dict albums)

/-! ## Annotation aligner primitives

`find_annotation_indices` (`src/htmlify.py`, lines 400-436, identical in
`bob_dylan_lyrics/__init__.py`, lines 547-589),
`remove_inline_annotation_marks` and `ANNOTATION_MARK_RE.findall`
(pattern `\*\*([0-9]+)\*\*`, `src/__init__.py`, lines 58-60). -/

/-- Python `str.isspace` on the characters `str.strip` removes (ASCII
range: space, tab, newline, carriage return, vertical tab, form feed). -/
def pyIsSpace (c : Char) : Bool :=
  c = ' ' || c = '\t' || c = '\n' || c = '\r' || c = '\x0b' || c = '\x0c'

/-- Python `str.strip()`: drop whitespace from both ends. -/
def pyStrip (s : String) : String :=
  ⟨((s.data.dropWhile pyIsSpace).reverse.dropWhile pyIsSpace).reverse⟩

/-- Python `str.split('**')`: split on each leftmost non-overlapping
occurrence of the two-character separator. -/
def splitSS : List Char → List (List Char)
  | [] => [[]]
  | '*' :: '*' :: cs => [] :: splitSS cs
  | c :: cs =>
      match splitSS cs with
      | seg :: rest => (c :: seg) :: rest
      | [] => [[c]]

/-- `line.strip().split('**')` as a list of strings. -/
def lineParts (line : String) : List String :=
  (splitSS (pyStrip line).data).map (fun l => ⟨l⟩)

/-- Errors raised around annotation processing (Python `ValueError`s,
named as in the documentation). -/
inductive AnnErr where
  | annotationCountMismatch
  | multipleAnnotationsPerLineUnsupported
  | annotationNumberingMismatch
  deriving Repr, DecidableEq

/-- The segment walk of `find_annotation_indices` (`src/htmlify.py`,
lines 417-430).  State: running character offset `i`, expectation
pointer `ai` (`annotation_index`), recorded offsets `acc` (`indices`).
A segment equal to `annotations[ai]` (in range, per the guarded
`try`/`IndexError`) is recorded at offset `i` and advances the pointer;
otherwise a segment occurring anywhere in `annotations` is skipped
(`part not in annotations` fails) and any other segment adds its length
to `i`.  Returns the recorded offsets and the final pointer. -/
def faiLoop : List String → List String → Nat → Nat → List Nat →
    List Nat × Nat
  | [], _, _, ai, acc => (acc, ai)
  | p :: rest, anns, i, ai, acc =>
      if anns.get? ai = some p then faiLoop rest anns i (ai + 1) (acc ++ [i])
      else if p ∈ anns then faiLoop rest anns i ai acc
      else faiLoop rest anns (i + p.length) ai acc

/-- The full segment walk on a line. -/
def annotation_walk (line : String) (annotations : List String) :
    List Nat × Nat :=
  faiLoop (lineParts line) annotations 0 0 []

/-- `find_annotation_indices` (`src/htmlify.py`, lines 400-436): run
the walk; raise when the expectation pointer did not advance once per
supplied annotation, else return the recorded offsets. -/
def find_annotation_indices (line : String) (annotations : List String) :
    Except AnnErr (List Nat) :=
  let r := annotation_walk line annotations
  if annotations.length ≠ r.2 then .error .annotationCountMismatch
  else .ok r.1

/-- Try to match the regex `\*\*([0-9]+)\*\*` at the head of the
character list: on success return the captured digit group and the
remainder after the match. -/
def markSplit : List Char → Option (List Char × List Char)
  | '*' :: '*' :: cs =>
      let ds := cs.takeWhile Char.isDigit
      match ds, cs.dropWhile Char.isDigit with
      | [], _ => none
      | _ :: _, '*' :: '*' :: rest => some (ds, rest)
      | _ :: _, _ => none
  | _ => none

/-- One regex scan (leftmost, non-overlapping, resuming after each
match end, as `re.sub`/`re.findall` do): returns the characters outside
the matches and the captured digit groups, in order.  Recursion is
fuelled by the list length; a match consumes at least one character, so
`fuel = cs.length` never runs out. -/
def scanMarksFuel : Nat → List Char → List Char × List (List Char)
  | 0, cs => (cs, [])
  | _ + 1, [] => ([], [])
  | fuel + 1, c :: cs =>
      match markSplit (c :: cs) with
      | some (ds, rest) =>
          let r := scanMarksFuel fuel rest
          (r.1, ds :: r.2)
      | none =>
          let r := scanMarksFuel fuel cs
          (c :: r.1, r.2)

/-- `remove_inline_annotation_marks` (`src/__init__.py`, line 60):
`ANNOTATION_MARK_RE.sub('', x)`. -/
def remove_inline_annotation_marks (s : String) : String :=
  ⟨(scanMarksFuel s.data.length s.data).1⟩

/-- `ANNOTATION_MARK_RE.findall(line)` (`src/htmlify.py`, line 1072):
the captured digit groups of every match, in order. -/
def annotation_findall (s : String) : List String :=
  ((scanMarksFuel s.data.length s.data).2).map (fun l => ⟨l⟩)

/-- Interpret a captured digit group as a number. -/
def natOfDigits (ds : List Char) : Nat :=
  ds.foldl (fun n c => 10 * n + (c.toNat - '0'.toNat)) 0

/-- Python `s[:ind] + t + s[ind:]` (`src/htmlify.py`, lines 1102-1104):
insert a replacement string at a character offset. -/
def insert_at (s : String) (ind : Nat) (t : String) : String :=
  ⟨s.data.take ind ++ t.data ++ s.data.drop ind⟩

/-! ## Walk descriptions for comparison

Two renderings of the segment walk as prose describes it, to be
compared with `faiLoop` (the walk as the code performs it). -/

/-- The segment walk as the claim words it: a segment is recorded and
the pointer advanced exactly when it equals the next expected
annotation AND sits where a marker-number segment should be (the odd
positions of the split on the two-character prefix); every other
segment is plain text and adds its full length to `i`.  State is
`(i, pointer, recorded offsets)`; the input carries the segment's
position in the split. -/
def claimedStep (anns : List String) (t : Nat × Nat × List Nat)
    (kp : Nat × String) : Nat × Nat × List Nat :=
  if kp.1 % 2 = 1 ∧ anns.get? t.2.1 = some kp.2 then
    (t.1, t.2.1 + 1, t.2.2 ++ [t.1])
  else
    (t.1 + kp.2.length, t.2.1, t.2.2)

/-- The whole walk under the claim's description. -/
def claimedWalk (line : String) (anns : List String) : Nat × Nat × List Nat :=
  ((lineParts line).enum).foldl (claimedStep anns) (0, 0, [])

/-- `find_annotation_indices` as the claim describes it. -/
def claimed_find_annotation_indices (line : String) (anns : List String) :
    Except AnnErr (List Nat) :=
  let r := claimedWalk line anns
  if anns.length ≠ r.2.1 then .error .annotationCountMismatch
  else .ok r.2.2

/-- The segment walk as the code actually behaves (amended
description): a segment is recorded and the pointer advanced exactly
when it equals the next expected annotation, at whatever split
position; a non-recorded segment adds its full length to `i` exactly
when it occurs nowhere in the supplied annotation list, and otherwise
contributes nothing. -/
def amendedStep (anns : List String) (t : Nat × Nat × List Nat)
    (p : String) : Nat × Nat × List Nat :=
  if anns.get? t.2.1 = some p then (t.1, t.2.1 + 1, t.2.2 ++ [t.1])
  else if p ∈ anns then t
  else (t.1 + p.length, t.2.1, t.2.2)

/-- The whole walk under the amended description. -/
def amendedWalk (line : String) (anns : List String) : Nat × Nat × List Nat :=
  (lineParts line).foldl (amendedStep anns) (0, 0, [])

/-! ## Per-song annotation driver

Modelled from the spec: the `htmlify` console-script module
`bob_dylan_lyrics/htmlify.py` (the per-song caller of
`find_annotation_indices`, §4.2 of the documentation) is not present
under `src/`; only its helpers are.  The definitions below follow the
documented contract `align(rawText) -> (paragraphs, footnotes,
perLineMarks)` with its typed failures. -/

/-- State of the per-song line pass: closed paragraphs, the paragraph
being accumulated, the footnote list, per-line rendering text with
`(offset, markerNumber)` insertion points, and every marker number
encountered so far in document order. -/
structure AlignState where
  paragraphs : List (List String)
  current : List String
  footnotes : List String
  lineMarks : List (String × List (Nat × Nat))
  markerNums : List Nat
  deriving Repr, DecidableEq

/-- The empty starting state. -/
def initState : AlignState := ⟨[], [], [], [], []⟩

/-- Trim trailing whitespace from a line (spec pre-processing). -/
def pyStripRight (s : String) : String :=
  ⟨(s.data.reverse.dropWhile pyIsSpace).reverse⟩

/-- A blank line: nothing but whitespace. -/
def isBlank (s : String) : Bool :=
  s.data.all pyIsSpace

/-- Modelled from the spec: a line is a footnote definition iff it
begins with the two-character marker prefix wrapping one or more digits
(then a separator and the note text). -/
def isFootnoteLine (s : String) : Bool :=
  (markSplit s.data).isSome

/-- Modelled from the spec: the note text of a footnote-definition
line, after the leading marker and separator. -/
def footnoteText (s : String) : String :=
  match markSplit s.data with
  | some (_, rest) => ⟨rest.dropWhile pyIsSpace⟩
  | none => s

/-- Modelled from the spec (missing `bob_dylan_lyrics/htmlify.py`):
handle one lyric line (non-blank, not a footnote definition).  A line
carrying two or more inline markers is rejected with
`MultipleAnnotationsPerLineUnsupported` before any offset computation;
otherwise offsets are computed by `find_annotation_indices`, the
markers are stripped, and the insertion points recorded. -/
def handleLyricLine (st : AlignState) (line : String) :
    Except AnnErr AlignState :=
  let nums := annotation_findall line
  if 2 ≤ nums.length then .error .multipleAnnotationsPerLineUnsupported
  else
    match find_annotation_indices line nums with
    | .error e => .error e
    | .ok inds =>
        let stripped := remove_inline_annotation_marks (pyStrip line)
        let numsN := nums.map (fun n => natOfDigits n.data)
        .ok { st with
              current := st.current ++ [stripped]
              lineMarks := st.lineMarks ++ [(stripped, inds.zip numsN)]
              markerNums := st.markerNums ++ numsN }

/-- Modelled from the spec: one line of the per-song pass — a blank
line closes the current paragraph, a footnote-definition line is moved
to the footnote list, any other line is a lyric line. -/
def alignStep (st : AlignState) (line : String) : Except AnnErr AlignState :=
  let l := pyStripRight line
  if isBlank l then
    .ok { st with paragraphs := st.paragraphs ++ [st.current], current := [] }
  else if isFootnoteLine l then
    .ok { st with footnotes := st.footnotes ++ [footnoteText l] }
  else
    handleLyricLine st l

/-- The per-line pass over all lines, stopping at the first failure. -/
def alignFold : AlignState → List String → Except AnnErr AlignState
  | st, [] => .ok st
  | st, line :: rest =>
      match alignStep st line with
      | .error e => .error e
      | .ok st' => alignFold st' rest

/-- End of input closes the final paragraph. -/
def closeFinal (st : AlignState) : AlignState :=
  { st with paragraphs := st.paragraphs ++ [st.current], current := [] }

/-- The aligner's successful output. -/
structure AlignResult where
  paragraphs : List (List String)
  footnotes : List String
  lineMarks : List (String × List (Nat × Nat))
  deriving Repr, DecidableEq

/-- Split raw text into lines at newline characters. -/
def splitNL : List Char → List (List Char)
  | [] => [[]]
  | '\n' :: cs => [] :: splitNL cs
  | c :: cs =>
      match splitNL cs with
      | seg :: rest => (c :: seg) :: rest
      | [] => [[c]]

/-- The lines of a raw lyrics text. -/
def toLines (rawText : String) : List String :=
  (splitNL rawText.data).map (fun l => ⟨l⟩)

/-- Modelled from the spec (missing `bob_dylan_lyrics/htmlify.py`): the
aligner contract.  After the per-line pass, the flat sequence of marker
numbers encountered in document order must equal `1, 2, …, N` for `N`
the footnote-definition count; any deviation fails with
`AnnotationNumberingMismatch` instead of producing output. -/
def align (rawText : String) : Except AnnErr AlignResult :=
  match alignFold initState (toLines rawText) with
  | .error e => .error e
  | .ok st =>
      let stF := closeFinal st
      if stF.markerNums = List.range' 1 stF.footnotes.length then
        .ok ⟨stF.paragraphs, stF.footnotes, stF.lineMarks⟩
      else
        .error .annotationNumberingMismatch

/-! ## Helper lemmas -/

/-- The recorded-offset count and the expectation pointer advance in
lock step during the walk. -/
theorem faiLoop_len (anns : List String) :
    ∀ (parts : List String) (i ai : Nat) (acc : List Nat),
      (faiLoop parts anns i ai acc).1.length + ai =
        (faiLoop parts anns i ai acc).2 + acc.length := by
  intro parts
  induction parts with
  | nil => intro i ai acc; simp [faiLoop]; omega
  | cons p rest ih =>
      intro i ai acc
      simp only [faiLoop]
      by_cases h1 : anns.get? ai = some p
      · rw [if_pos h1]
        have h := ih i (ai + 1) (acc ++ [i])
        simp only [List.length_append, List.length_cons, List.length_nil] at h
        omega
      · rw [if_neg h1]
        by_cases h2 : p ∈ anns
        · rw [if_pos h2]; exact ih i ai acc
        · rw [if_neg h2]; exact ih (i + p.length) ai acc

/-- The code's segment walk computes exactly the amended-description
fold. -/
theorem faiLoop_eq_amended (anns : List String) :
    ∀ (parts : List String) (i ai : Nat) (acc : List Nat),
      faiLoop parts anns i ai acc =
        ((parts.foldl (amendedStep anns) (i, ai, acc)).2.2,
         (parts.foldl (amendedStep anns) (i, ai, acc)).2.1) := by
  intro parts
  induction parts with
  | nil => intro i ai acc; simp [faiLoop]
  | cons p rest ih =>
      intro i ai acc
      simp only [faiLoop, List.foldl, amendedStep]
      by_cases h1 : anns.get? ai = some p
      · rw [if_pos h1, if_pos h1]; exact ih i (ai + 1) (acc ++ [i])
      · rw [if_neg h1, if_neg h1]
        by_cases h2 : p ∈ anns
        · rw [if_pos h2, if_pos h2]; exact ih i ai acc
        · rw [if_neg h2, if_neg h2]; exact ih (i + p.length) ai acc

/-! ## Claims about the aligner -/

/-- Claim C1 (spec-modelled): a lyric line handed to the per-line
marker handling that carries two or more inline markers is rejected
with `MultipleAnnotationsPerLineUnsupported` before any offset is
computed, and that rejection never fires on a line with at most one
inline marker. -/
theorem multi_marker_rejected (st : AlignState) (line : String) :
    (2 ≤ (annotation_findall line).length →
      handleLyricLine st line =
        .error .multipleAnnotationsPerLineUnsupported)
    ∧ ((annotation_findall line).length ≤ 1 →
      handleLyricLine st line ≠
        .error .multipleAnnotationsPerLineUnsupported) := by
  constructor
  · intro h
    simp only [handleLyricLine]
    rw [if_pos h]
  · intro h
    simp only [handleLyricLine]
    rw [if_neg (by omega)]
    cases hf : find_annotation_indices line (annotation_findall line) with
    | error e =>
        have : e = AnnErr.annotationCountMismatch := by
          simp only [find_annotation_indices] at hf
          by_cases hc :
              (annotation_findall line).length ≠
                (annotation_walk line (annotation_findall line)).2
          · rw [if_pos hc] at hf; exact (Except.error.inj hf).symm
          · rw [if_neg hc] at hf; cases hf
        simp [this]
    | ok inds => simp

/-- Witness for C1: the line `"a **1** b **2** c"` carries two inline
markers and is rejected. -/
theorem multi_marker_rejected_witness :
    handleLyricLine initState "a **1** b **2** c" =
      .error .multipleAnnotationsPerLineUnsupported :=
  (multi_marker_rejected initState "a **1** b **2** c").1 (by decide)

/-- Claim C2 (spec-modelled): when the per-line pass over a song's raw
text succeeds, the aligner fails with `AnnotationNumberingMismatch`
exactly when the sequence of marker numbers encountered in document
order differs from `1, 2, …, N` for `N` the footnote count, and
produces its output exactly when they agree. -/
theorem numbering_validation (rawText : String) (st : AlignState)
    (h : alignFold initState (toLines rawText) = .ok st) :
    (align rawText = .error .annotationNumberingMismatch ↔
      st.markerNums ≠ List.range' 1 st.footnotes.length)
    ∧ (st.markerNums = List.range' 1 st.footnotes.length →
      align rawText =
        .ok ⟨(closeFinal st).paragraphs, st.footnotes, st.lineMarks⟩) := by
  have hm : (closeFinal st).markerNums = st.markerNums := rfl
  have hf : (closeFinal st).footnotes = st.footnotes := rfl
  constructor
  · simp only [align, h]
    by_cases hc : st.markerNums = List.range' 1 st.footnotes.length
    · rw [if_pos (by rw [hm, hf]; exact hc)]
      simp [hc]
    · rw [if_neg (by rw [hm, hf]; exact hc)]
      simp [hc]
  · intro hc
    simp only [align, h]
    rw [if_pos (by rw [hm, hf]; exact hc)]
    rfl

/-- Witness for C2: footnotes `["note A", "note B"]` with inline
markers encountered in order `[1, 3]` raise
`AnnotationNumberingMismatch` (the spec's own numbering-validation
example). -/
theorem numbering_validation_witness :
    align "a **1** b\nc **3** d\n\n**1** note A\n**2** note B" =
      .error .annotationNumberingMismatch :=
  ((numbering_validation "a **1** b\nc **3** d\n\n**1** note A\n**2** note B"
      ⟨[["a  b", "c  d"]], [], ["note A", "note B"],
       [("a  b", [(2, 1)]), ("c  d", [(2, 3)])], [1, 3]⟩ rfl).1).mpr
    (by decide)

/-- Counterexample to claim C3 as stated: on the line `"1**1**x"` with
marker list `["1"]`, the code records the offset at the very first
split segment — a plain-text position — returning `[0]`, while the
claimed walk (record only at a marker-number position, every other
segment adds its full length) returns `[1]`. -/
theorem segment_walk_counterexample :
    find_annotation_indices "1**1**x" ["1"] = Except.ok [0] ∧
    claimed_find_annotation_indices "1**1**x" ["1"] = Except.ok [1] ∧
    ([0] : List Nat) ≠ [1] :=
  ⟨rfl, rfl, by decide⟩

/-- Claim C3 amended: during the segment walk, a segment's offset is
recorded and the expectation pointer advanced exactly when the segment
equals the next expected marker number as text, at whatever position in
the split; a non-recorded segment adds its full length to the running
offset exactly when it occurs nowhere in the supplied marker list, and
a non-recorded segment equal to some supplied marker value contributes
nothing.  The code's walk equals the fold of that step function. -/
theorem segment_walk_amended (line : String) (anns : List String) :
    annotation_walk line anns =
      ((amendedWalk line anns).2.2, (amendedWalk line anns).2.1) :=
  faiLoop_eq_amended anns (lineParts line) 0 0 []

/-- Claim C7: offset/strip round trip on `"Hello **1** world"` with
marker list `["1"]` — computed offset `6`, stripped line
`"Hello  world"` (two literal spaces), and re-inserting any markup at
offset `6` of the stripped line lands it between `"Hello "` and
`" world"`. -/
theorem offset_strip_round_trip :
    find_annotation_indices "Hello **1** world" ["1"] = Except.ok [6] ∧
    remove_inline_annotation_marks "Hello **1** world" = "Hello  world" ∧
    ∀ markup : String,
      insert_at "Hello  world" 6 markup = "Hello " ++ markup ++ " world" :=
  ⟨rfl, rfl, by intro m; simp [insert_at, String.ext_iff]⟩

/-- Claim C8: `find_annotation_indices` fails — necessarily with
`AnnotationCountMismatch` — exactly when the number of recorded
offsets differs from the number of supplied markers, and on success
the recorded offsets number exactly the supplied markers. -/
theorem count_mismatch_iff (line : String) (anns : List String) :
    (find_annotation_indices line anns = .error .annotationCountMismatch ↔
      (annotation_walk line anns).1.length ≠ anns.length)
    ∧ (∀ e, find_annotation_indices line anns = .error e →
        e = .annotationCountMismatch)
    ∧ (∀ inds, find_annotation_indices line anns = .ok inds →
        inds.length = anns.length) := by
  have hlen : (annotation_walk line anns).1.length =
      (annotation_walk line anns).2 := by
    have h := faiLoop_len anns (lineParts line) 0 0 []
    simpa [annotation_walk] using h
  refine ⟨?_, ?_, ?_⟩
  · simp only [find_annotation_indices]
    by_cases hc : anns.length ≠ (annotation_walk line anns).2
    · rw [if_pos hc]; simp; omega
    · rw [if_neg hc]; simp; omega
  · intro e he
    simp only [find_annotation_indices] at he
    by_cases hc : anns.length ≠ (annotation_walk line anns).2
    · rw [if_pos hc] at he; exact (Except.error.inj he).symm
    · rw [if_neg hc] at he; cases he
  · intro inds hok
    simp only [find_annotation_indices] at hok
    by_cases hc : anns.length ≠ (annotation_walk line anns).2
    · rw [if_pos hc] at hok; cases hok
    · rw [if_neg hc] at hok
      have h1 : (annotation_walk line anns).1 = inds := Except.ok.inj hok
      rw [← h1]
      omega

/-- Witness for C8: on `"x"` with markers `["1"]` no offset is
recorded, and the function fails with `AnnotationCountMismatch`. -/
theorem count_mismatch_iff_witness :
    find_annotation_indices "x" ["1"] =
      .error .annotationCountMismatch :=
  ((count_mismatch_iff "x" ["1"]).1).mpr (by decide)

/-! ## Helper lemmas about the resolver -/

/-- For a skip-set file id the scan is bypassed and a fresh group is
appended. -/
theorem addVersion_skip (gs : List VersionGroup) (fid : Option String)
    (a : AlbumRef) (h : fid ∈ file_id_types_to_skip) :
    addVersion gs fid a = gs ++ [⟨fid, [a]⟩] := by
  simp [addVersion, h]

/-- The scan finds nothing when no group carries the file id. -/
theorem tryMergeAlbum_none (fid : Option String) (a : AlbumRef) :
    ∀ gs : List VersionGroup, (∀ g ∈ gs, g.file_id ≠ fid) →
      tryMergeAlbum gs fid a = none
  | [], _ => rfl
  | g :: rest, h => by
      simp only [tryMergeAlbum]
      rw [if_neg (h g (by simp))]
      rw [tryMergeAlbum_none fid a rest (fun g' hg' => h g' (by simp [hg']))]
      rfl

/-- The scan stops at the first group carrying the file id and appends
the album to that group alone. -/
theorem tryMergeAlbum_first (fid : Option String) (a : AlbumRef) :
    ∀ (gs1 : List VersionGroup) (g : VersionGroup) (gs2 : List VersionGroup),
      (∀ g' ∈ gs1, g'.file_id ≠ fid) → g.file_id = fid →
      tryMergeAlbum (gs1 ++ g :: gs2) fid a =
        some (gs1 ++ { g with albums := g.albums ++ [a] } :: gs2)
  | [], g, gs2, _, hg => by simp [tryMergeAlbum, hg]
  | g1 :: gs1, g, gs2, h1, hg => by
      simp only [List.cons_append, tryMergeAlbum, List.append_eq]
      rw [if_neg (h1 g1 (by simp))]
      rw [tryMergeAlbum_first fid a gs1 g gs2
        (fun g' hg' => h1 g' (by simp [hg'])) hg]
      rfl

/-- A failed scan means no group carries the file id. -/
theorem tryMergeAlbum_none_all (fid : Option String) (a : AlbumRef) :
    ∀ gs : List VersionGroup, tryMergeAlbum gs fid a = none →
      ∀ g ∈ gs, g.file_id ≠ fid
  | [], _, g, hg => by cases hg
  | g0 :: rest, h, g, hg => by
      simp only [tryMergeAlbum] at h
      by_cases h0 : g0.file_id = fid
      · rw [if_pos h0] at h; cases h
      · rw [if_neg h0] at h
        rcases List.mem_cons.mp hg with rfl | hg'
        · exact h0
        · cases hr : tryMergeAlbum rest fid a with
          | some gs' => rw [hr] at h; cases h
          | none => exact tryMergeAlbum_none_all fid a rest hr g hg'

/-- The file ids of a non-skip-filtered entry list. -/
def nonSkipIds : List VersionGroup → List (Option String)
  | [] => []
  | g :: rest =>
      if g.file_id ∈ file_id_types_to_skip then nonSkipIds rest
      else g.file_id :: nonSkipIds rest

/-- `nonSkipIds` distributes over append. -/
theorem nonSkipIds_append : ∀ gs1 gs2 : List VersionGroup,
    nonSkipIds (gs1 ++ gs2) = nonSkipIds gs1 ++ nonSkipIds gs2
  | [], _ => rfl
  | g :: gs1, gs2 => by
      simp only [List.cons_append, nonSkipIds, List.append_eq]
      by_cases h : g.file_id ∈ file_id_types_to_skip
      · rw [if_pos h, if_pos h, nonSkipIds_append gs1 gs2]
      · rw [if_neg h, if_neg h, nonSkipIds_append gs1 gs2]; rfl

/-- A successful scan changes a group's album list only, never any
file id. -/
theorem tryMergeAlbum_nonSkipIds (fid : Option String) (a : AlbumRef) :
    ∀ gs gs' : List VersionGroup, tryMergeAlbum gs fid a = some gs' →
      nonSkipIds gs' = nonSkipIds gs
  | [], _, h => by cases h
  | g :: rest, gs', h => by
      simp only [tryMergeAlbum] at h
      by_cases h0 : g.file_id = fid
      · rw [if_pos h0] at h
        obtain rfl := Option.some.inj h
        simp only [nonSkipIds]
      · rw [if_neg h0] at h
        cases hr : tryMergeAlbum rest fid a with
        | none => rw [hr] at h; cases h
        | some rest' =>
            rw [hr] at h
            obtain rfl : g :: rest' = gs' := Option.some.inj h
            simp only [nonSkipIds]
            rw [tryMergeAlbum_nonSkipIds fid a rest rest' hr]

/-- A non-skip id in `nonSkipIds` comes from some group. -/
theorem mem_nonSkipIds (x : Option String) :
    ∀ gs : List VersionGroup, x ∈ nonSkipIds gs →
      ∃ g ∈ gs, g.file_id = x
  | [], h => by cases h
  | g :: rest, h => by
      simp only [nonSkipIds] at h
      by_cases h0 : g.file_id ∈ file_id_types_to_skip
      · rw [if_pos h0] at h
        obtain ⟨g', hg', he⟩ := mem_nonSkipIds x rest h
        exact ⟨g', by simp [hg'], he⟩
      · rw [if_neg h0] at h
        rcases List.mem_cons.mp h with rfl | h'
        · exact ⟨g, by simp, rfl⟩
        · obtain ⟨g', hg', he⟩ := mem_nonSkipIds x rest h'
          exact ⟨g', by simp [hg'], he⟩

/-- `addVersion` keeps the non-skip file ids of an entry duplicate
free. -/
theorem nodup_addVersion (gs : List VersionGroup) (fid : Option String)
    (a : AlbumRef) (h : (nonSkipIds gs).Nodup) :
    (nonSkipIds (addVersion gs fid a)).Nodup := by
  by_cases hskip : fid ∈ file_id_types_to_skip
  · rw [addVersion_skip gs fid a hskip, nonSkipIds_append]
    have : nonSkipIds [⟨fid, [a]⟩] = [] := by simp [nonSkipIds, hskip]
    rw [this, List.append_nil]
    exact h
  · simp only [addVersion, if_neg hskip]
    cases hm : tryMergeAlbum gs fid a with
    | some gs' =>
        simp only
        rw [tryMergeAlbum_nonSkipIds fid a gs gs' hm]
        exact h
    | none =>
        simp only
        rw [nonSkipIds_append]
        have hone : nonSkipIds [⟨fid, [a]⟩] = [fid] := by
          simp [nonSkipIds, hskip]
        rw [hone]
        have hnot : fid ∉ nonSkipIds gs := by
          intro hmem
          obtain ⟨g, hg, he⟩ := mem_nonSkipIds fid gs hmem
          exact tryMergeAlbum_none_all fid a gs hm g hg he
        simpa [List.nodup_append] using ⟨h, hnot⟩

/-- Every entry of the dictionary has duplicate-free non-skip file
ids. -/
def DictInv (d : SongFilesDict) : Prop :=
  ∀ e ∈ d, (nonSkipIds e.2).Nodup

/-- `addSongToDict` preserves the entry invariant. -/
theorem dictInv_addSongToDict (key : String) (fid : Option String)
    (a : AlbumRef) :
    ∀ d : SongFilesDict, DictInv d → DictInv (addSongToDict d key fid a)
  | [], _ => by
      intro e he
      simp only [addSongToDict] at he
      rcases List.mem_singleton.mp he with rfl
      by_cases hskip : fid ∈ file_id_types_to_skip <;>
        simp [nonSkipIds, hskip]
  | (k, gs) :: rest, h => by
      intro e he
      simp only [addSongToDict] at he
      by_cases hk : k = key
      · rw [if_pos hk] at he
        rcases List.mem_cons.mp he with rfl | he'
        · exact nodup_addVersion gs fid a (h (k, gs) (by simp))
        · exact h e (by simp [he'])
      · rw [if_neg hk] at he
        rcases List.mem_cons.mp he with rfl | he'
        · exact h (k, gs) (by simp)
        · exact dictInv_addSongToDict key fid a rest
            (fun e' he'' => h e' (by simp [he''])) e he'

/-- A fold preserves any invariant its step preserves. -/
theorem foldl_inv {α σ : Type _} (P : σ → Prop) (f : σ → α → σ)
    (hf : ∀ s x, P s → P (f s x)) :
    ∀ (l : List α) (s : σ), P s → P (l.foldl f s)
  | [], _, h => h
  | x :: l, s, h => foldl_inv P f hf l (f s x) (hf s x h)

/-- Two albums each carrying one appearance of the same song with the
same non-skip file id resolve to a single group listing both albums in
order. -/
theorem build_two_singleton (al1 al2 : Album) (s1 s2 : Song)
    (h1 : al1.songs = [s1]) (h2 : al2.songs = [s2])
    (hk : song_key s2 = song_key s1)
    (hf : song_file_id s2 = song_file_id s1)
    (hns : song_file_id s1 ∉ file_id_types_to_skip) :
    build_song_files_dict [al1, al2] =
      [(song_key s1, [⟨song_file_id s1,
          [⟨al1.name, al1.file_id⟩, ⟨al2.name, al2.file_id⟩]⟩])] := by
  simp only [build_song_files_dict, List.foldl, h1, h2]
  simp only [addSong, addSongToDict, hk, hf, if_true]
  simp only [addVersion, if_neg hns, tryMergeAlbum]
  simp

/-! ## Claims about the resolver -/

/-- Claim C4: when a song's computed file id is in the skip set and its
canonical name is already in the index, the resolver unconditionally
appends a fresh group holding only the current album — the existing
groups are kept untouched and never merged into. -/
theorem skip_never_merges (s : Song) (a : AlbumRef) :
    ∀ (d : SongFilesDict) (gs : List VersionGroup),
      song_file_id s ∈ file_id_types_to_skip →
      lookupSong d (song_key s) = some gs →
      lookupSong (addSong d a s) (song_key s) =
        some (gs ++ [⟨song_file_id s, [a]⟩])
  | [], gs, _, hmem => by cases hmem
  | (k, gs') :: rest, gs, hskip, hmem => by
      by_cases hk : k = song_key s
      · simp only [lookupSong, if_pos hk] at hmem
        obtain rfl : gs' = gs := Option.some.inj hmem
        simp only [addSong, addSongToDict, if_pos hk, lookupSong]
        rw [addVersion_skip _ (song_file_id s) a hskip]
      · simp only [lookupSong, if_neg hk] at hmem
        simp only [addSong, addSongToDict, if_neg hk, lookupSong,
          if_neg hk]
        exact skip_never_merges s a rest gs hskip hmem

/-- Witness for C4: a song marked instrumental on a second album gets a
second separate `instrumental` group next to the first album's one. -/
theorem skip_never_merges_witness :
    lookupSong
      (addSong [("Song", [⟨some "instrumental", [⟨"A", "a"⟩]⟩])]
        ⟨"B", "b"⟩ ⟨"Song", none, none, true, false⟩)
      (song_key ⟨"Song", none, none, true, false⟩) =
      some [⟨some "instrumental", [⟨"A", "a"⟩]⟩,
            ⟨some "instrumental", [⟨"B", "b"⟩]⟩] :=
  skip_never_merges ⟨"Song", none, none, true, false⟩ ⟨"B", "b"⟩
    [("Song", [⟨some "instrumental", [⟨"A", "a"⟩]⟩])]
    [⟨some "instrumental", [⟨"A", "a"⟩]⟩] (by decide) rfl

/-- Claim C5: for a non-skip file id the resolver scans the entry's
groups — the first group with an equal file id receives the current
album at the end of its album list (so the same song on album A then
album B yields one group listing exactly `[A, B]`); when no group
matches, a fresh group is appended; and every entry of the built index
keeps its non-skip groups unique by file id. -/
theorem nonskip_scan_merge :
    (∀ (gs : List VersionGroup) (fid : Option String) (a : AlbumRef),
        fid ∉ file_id_types_to_skip → (∀ g ∈ gs, g.file_id ≠ fid) →
        addVersion gs fid a = gs ++ [⟨fid, [a]⟩])
    ∧ (∀ (gs1 gs2 : List VersionGroup) (g : VersionGroup)
          (fid : Option String) (a : AlbumRef),
        fid ∉ file_id_types_to_skip → (∀ g' ∈ gs1, g'.file_id ≠ fid) →
        g.file_id = fid →
        addVersion (gs1 ++ g :: gs2) fid a =
          gs1 ++ { g with albums := g.albums ++ [a] } :: gs2)
    ∧ (∀ (al1 al2 : Album) (s1 s2 : Song),
        al1.songs = [s1] → al2.songs = [s2] →
        song_key s2 = song_key s1 → song_file_id s2 = song_file_id s1 →
        song_file_id s1 ∉ file_id_types_to_skip →
        build_song_files_dict [al1, al2] =
          [(song_key s1, [⟨song_file_id s1,
              [⟨al1.name, al1.file_id⟩, ⟨al2.name, al2.file_id⟩]⟩])])
    ∧ (∀ (albums : List Album), DictInv (build_song_files_dict albums)) := by
  refine ⟨?_, ?_, build_two_singleton, ?_⟩
  · intro gs fid a hns hnone
    simp only [addVersion, if_neg hns,
      tryMergeAlbum_none fid a gs hnone]
  · intro gs1 gs2 g fid a hns h1 hg
    simp only [addVersion, if_neg hns,
      tryMergeAlbum_first fid a gs1 g gs2 h1 hg]
  · intro albums
    refine foldl_inv DictInv _ ?_ albums [] (by intro e he; cases he)
    intro d album hd
    refine foldl_inv DictInv _ ?_ album.songs d hd
    intro d' song hd'
    exact dictInv_addSongToDict (song_key song) (song_file_id song)
      ⟨album.name, album.file_id⟩ d' hd'

/-- Witness for C5: a song with the same ordinary file id on two
albums resolves to one group whose album list is exactly the two
albums in order. -/
theorem nonskip_scan_merge_witness :
    build_song_files_dict
      [⟨"A", "a", [⟨"Song", none, some "v1", false, false⟩]⟩,
       ⟨"B", "b", [⟨"Song", none, some "v1", false, false⟩]⟩] =
      [(song_key ⟨"Song", none, some "v1", false, false⟩,
        [⟨song_file_id ⟨"Song", none, some "v1", false, false⟩,
          [⟨"A", "a"⟩, ⟨"B", "b"⟩]⟩])] :=
  nonskip_scan_merge.2.2.1
    ⟨"A", "a", [⟨"Song", none, some "v1", false, false⟩]⟩
    ⟨"B", "b", [⟨"Song", none, some "v1", false, false⟩]⟩
    ⟨"Song", none, some "v1", false, false⟩
    ⟨"Song", none, some "v1", false, false⟩
    rfl rfl rfl rfl (by decide)

/-- Claim C6: exactly one category is computed per song, with priority
instrumental flag, then non-empty `written_and_performed_by`, then the
song's own file id; and the canonical merge key is `actual_name` when
present, else the display name. -/
theorem category_priority (s : Song) :
    (s.instrumental = true → song_file_id s = some "instrumental")
    ∧ (s.instrumental = false → s.written_and_performed_by = true →
        song_file_id s = some "not_written_or_peformed_by_dylan")
    ∧ (s.instrumental = false → s.written_and_performed_by = false →
        song_file_id s = s.file_id)
    ∧ (∀ n, s.actual_name = some n → song_key s = n)
    ∧ (s.actual_name = none → song_key s = s.name) := by
  refine ⟨?_, ?_, ?_, ?_, ?_⟩ <;> intros <;>
    simp_all [song_file_id, song_key]

/-- Witness for C6: an instrumental song with an `actual_name` gets
the `instrumental` category and the alternate canonical key. -/
theorem category_priority_witness :
    song_file_id ⟨"N", some "AN", some "f", true, true⟩ =
      some "instrumental"
    ∧ song_key ⟨"N", some "AN", some "f", true, true⟩ = "AN" :=
  ⟨(category_priority ⟨"N", some "AN", some "f", true, true⟩).1 rfl,
   (category_priority ⟨"N", some "AN", some "f", true, true⟩).2.2.2.1
     "AN" rfl⟩

/-! ### Helpers for claim C9 -/

/-- A source with only comments and `song` records collects no
albums. -/
theorem collectAlbums_none :
    ∀ lines : List SrcLine,
      (∀ l ∈ lines, l = SrcLine.song ∨ ∃ t, l = SrcLine.comment t) →
      collectAlbums lines = .ok []
  | [], _ => rfl
  | l :: rest, h => by
      have hrest := collectAlbums_none rest
        (fun l' hl' => h l' (by simp [hl']))
      rcases h l (by simp) with rfl | ⟨t, rfl⟩
      · simpa [collectAlbums] using hrest
      · simpa [collectAlbums] using hrest

/-- An album record in the source makes the collected list
non-empty. -/
theorem collectAlbums_mem :
    ∀ (lines : List SrcLine) (a : Album) (albums : List Album),
      SrcLine.album a ∈ lines → collectAlbums lines = .ok albums →
      albums ≠ []
  | [], _, _, hmem, _ => by cases hmem
  | l :: rest, a, albums, hmem, hcol => by
      cases l with
      | comment t =>
          simp only [collectAlbums] at hcol
          rcases List.mem_cons.mp hmem with h | h
          · cases h
          · exact collectAlbums_mem rest a albums h hcol
      | album a' =>
          simp only [collectAlbums] at hcol
          cases hr : collectAlbums rest with
          | error e =>
              rw [hr] at hcol
              simp only [Except.map] at hcol
              cases hcol
          | ok l' =>
              rw [hr] at hcol
              simp only [Except.map] at hcol
              obtain rfl : a' :: l' = albums := Except.ok.inj hcol
              simp
      | song =>
          simp only [collectAlbums] at hcol
          rcases List.mem_cons.mp hmem with h | h
          · cases h
          · exact collectAlbums_mem rest a albums h hcol
      | other t => simp only [collectAlbums] at hcol; cases hcol

/-- The record walk only ever raises `MalformedIndexRecord`. -/
theorem collectAlbums_error :
    ∀ (lines : List SrcLine) (e : IndexErr),
      collectAlbums lines = .error e → e = .malformedIndexRecord
  | [], _, h => by cases h
  | l :: rest, e, h => by
      cases l with
      | comment t => exact collectAlbums_error rest e h
      | album a =>
          simp only [collectAlbums] at h
          cases hr : collectAlbums rest with
          | error e' =>
              rw [hr] at h
              simp only [Except.map] at h
              obtain rfl : e' = e := Except.error.inj h
              exact collectAlbums_error rest _ hr
          | ok l' =>
              rw [hr] at h
              simp only [Except.map] at h
              cases h
      | song => exact collectAlbums_error rest e h
      | other t =>
          simp only [collectAlbums] at h
          exact (Except.error.inj h).symm

/-- Claim C9: a metadata index source with zero album records — however
many comment lines or song-typed records it holds — fails with
`EmptyIndexFile`, and with at least one album record that failure never
occurs. -/
theorem empty_index (lines : List SrcLine) :
    ((∀ l ∈ lines, l = SrcLine.song ∨ ∃ t, l = SrcLine.comment t) →
      read_songs_index lines = .error .emptyIndexFile)
    ∧ ((∃ a, SrcLine.album a ∈ lines) →
      read_songs_index lines ≠ .error .emptyIndexFile) := by
  constructor
  · intro h
    simp [read_songs_index, collectAlbums_none lines h]
  · rintro ⟨a, hmem⟩ hread
    cases hcol : collectAlbums lines with
    | error e =>
        have he := collectAlbums_error lines e hcol
        subst he
        have hr : read_songs_index lines = .error .malformedIndexRecord := by
          simp [read_songs_index, hcol]
        rw [hr] at hread
        simp at hread
    | ok albums =>
        have hne := collectAlbums_mem lines a albums hmem hcol
        have hr : read_songs_index lines =
            .ok (albums, build_song_files_dict albums) := by
          simp [read_songs_index, hcol, List.isEmpty_iff, hne]
        rw [hr] at hread
        simp at hread

/-- Witness for C9: a source of one comment and one song record fails
with `EmptyIndexFile`; adding an album record removes that failure. -/
theorem empty_index_witness :
    read_songs_index [SrcLine.comment "# c", SrcLine.song] =
      .error .emptyIndexFile
    ∧ read_songs_index [SrcLine.album ⟨"A", "a", []⟩] ≠
      .error .emptyIndexFile :=
  ⟨(empty_index [SrcLine.comment "# c", SrcLine.song]).1
    (by intro l hl
        rcases List.mem_cons.mp hl with rfl | hl'
        · exact Or.inr ⟨"# c", rfl⟩
        · rcases List.mem_cons.mp hl' with rfl | h
          · exact Or.inl rfl
          · cases h),
   (empty_index [SrcLine.album ⟨"A", "a", []⟩]).2
    ⟨⟨"A", "a", []⟩, by simp⟩⟩

/-- Claim C10: two appearances, on different albums, of the same
canonical song, each neither instrumental nor by another artist and
each without a file id, carry the absent id `none`, which is not in the
skip set; the two appearances therefore merge into the one group
`⟨none, [A, B]⟩`. -/
theorem absent_id_merges (al1 al2 : Album) (s1 s2 : Song)
    (h1 : al1.songs = [s1]) (h2 : al2.songs = [s2])
    (hi1 : s1.instrumental = false)
    (hw1 : s1.written_and_performed_by = false)
    (hf1 : s1.file_id = none)
    (hi2 : s2.instrumental = false)
    (hw2 : s2.written_and_performed_by = false)
    (hf2 : s2.file_id = none)
    (hk : song_key s2 = song_key s1) :
    (none : Option String) ∉ file_id_types_to_skip
    ∧ build_song_files_dict [al1, al2] =
      [(song_key s1,
        [⟨none, [⟨al1.name, al1.file_id⟩, ⟨al2.name, al2.file_id⟩]⟩])] := by
  have hfid1 : song_file_id s1 = none := by
    simp [song_file_id, hi1, hw1, hf1]
  have hfid2 : song_file_id s2 = none := by
    simp [song_file_id, hi2, hw2, hf2]
  refine ⟨by decide, ?_⟩
  have h := build_two_singleton al1 al2 s1 s2 h1 h2 hk
    (by rw [hfid1, hfid2]) (by rw [hfid1]; decide)
  rw [hfid1] at h
  exact h

/-- Witness for C10: an identifier-less ordinary song on two albums
resolves to a single merged version group. -/
theorem absent_id_merges_witness :
    build_song_files_dict
      [⟨"A", "a", [⟨"Song", none, none, false, false⟩]⟩,
       ⟨"B", "b", [⟨"Song", none, none, false, false⟩]⟩] =
      [(song_key ⟨"Song", none, none, false, false⟩,
        [⟨none, [⟨"A", "a"⟩, ⟨"B", "b"⟩]⟩])] :=
  (absent_id_merges
    ⟨"A", "a", [⟨"Song", none, none, false, false⟩]⟩
    ⟨"B", "b", [⟨"Song", none, none, false, false⟩]⟩
    ⟨"Song", none, none, false, false⟩ ⟨"Song", none, none, false, false⟩
    rfl rfl rfl rfl rfl rfl rfl rfl rfl).2

end BobDylan
